/-
Verification of the sentiment-analysis monitoring stack:
a shallow embedding of `app.py` (score ranking of `SentimentAnalyzer.predict`),
`monitoring.py` (`SentimentMonitor`), and `retrain.py` (`RetrainingManager`),
with theorems settling the behavioural claims about them.

Numeric values are modelled as rationals (the Python floats carry exact
decimal literals in every claim considered here); the wall clock is passed
explicitly as a natural number of seconds.
-/
import Mathlib

/-- The three sentiment labels, in the canonical order of `self.labels`
in `app.py` (`['Negative', 'Neutral', 'Positive']`). -/
inductive Label
  | Negative
  | Neutral
  | Positive
deriving DecidableEq, Repr

/-- Indexing `self.labels[i]` of `app.py`: index into the canonical label list. -/
def Label.ofIdx : Nat → Label
  | 0 => .Negative
  | 1 => .Neutral
  | _ => .Positive

/-- A mapping from the three labels to a rational, used both for the
score dictionary of a prediction and for label distributions
(`baseline_distribution`, `current_dist`). -/
structure LabelDist where
  Negative : ℚ
  Neutral : ℚ
  Positive : ℚ
deriving DecidableEq, Repr

/-- Lookup of a `LabelDist` at a label. -/
def LabelDist.get (d : LabelDist) : Label → ℚ
  | .Negative => d.Negative
  | .Neutral => d.Neutral
  | .Positive => d.Positive

/-- Reading `scores[i]` in the `predict` of `app.py`: the post-softmax score vector read
at position `i` of the canonical order. -/
def LabelDist.nth (d : LabelDist) : Nat → ℚ
  | 0 => d.Negative
  | 1 => d.Neutral
  | _ => d.Positive

/-- The dictionary returned by `SentimentAnalyzer.predict` in `app.py`:
`{"sentiment": ..., "confidence": ..., "scores": ...}`. -/
structure PredictionResult where
  sentiment : Label
  confidence : ℚ
  scores : LabelDist
deriving DecidableEq, Repr

/-- One insertion step of an ascending, stable insertion sort on indices,
keyed by `key`.  `np.argsort` with the default kind runs insertion sort on
arrays of fewer than 16 elements, which is exactly this stable ascending
sort; `predict` sorts the 3 scores. An index inserted later (i.e. a larger
original position) passes every earlier index with an equal key, so equal
keys keep their original order. -/
def insertAsc (key : Nat → ℚ) (i : Nat) : List Nat → List Nat
  | [] => [i]
  | j :: rest => if key i < key j then i :: j :: rest else j :: insertAsc key i rest

/-- Model of `np.argsort(scores)` in `app.py` for an array of length `n` (< 16):
stable ascending argsort of the indices `0, ..., n-1` by their key. -/
def argsort (key : Nat → ℚ) (n : Nat) : List Nat :=
  (List.range n).foldl (fun acc i => insertAsc key i acc) []

/-- The pure tail of `SentimentAnalyzer.predict` in `app.py`, from the
post-softmax score vector on: `ranking = np.argsort(scores)[::-1]`,
`top_label = self.labels[ranking[0]]`, `confidence = scores[ranking[0]]`,
and the result dictionary.  The model inference producing `scores` is the
opaque external collaborator; it is a parameter here. -/
def predict (scores : LabelDist) : PredictionResult :=
  let ranking := (argsort scores.nth 3).reverse
  let top := ranking.headD 0
  { sentiment := Label.ofIdx top
    confidence := scores.nth top
    scores := scores }

/-- Model of `np.mean` on a list of rationals (`sum / length`; the empty case is
never reached on the guarded paths of `monitoring.py`). -/
def listMean (l : List ℚ) : ℚ := l.sum / (l.length : ℚ)

/-- Model of `np.min` on a nonempty list (0 as an unused default for `[]`). -/
def listMin : List ℚ → ℚ
  | [] => 0
  | x :: xs => xs.foldl min x

/-- Model of `np.max` on a nonempty list (0 as an unused default for `[]`). -/
def listMax : List ℚ → ℚ
  | [] => 0
  | x :: xs => xs.foldl max x

/-- Appending to a Python deque of capacity `maxlen`: append on the right and
discard from the left whatever exceeds the capacity. -/
def dequeAppend (maxlen : Nat) (l : List α) (x : α) : List α :=
  (l ++ [x]).drop (l.length + 1 - maxlen)

/-- The alerts built by `SentimentMonitor.check_alerts` in `monitoring.py`.
`lowConfidence` is the `LOW_CONFIDENCE`/`WARNING` dictionary, carrying the
mean confidence and the threshold embedded in its message; `distributionDrift`
is the `DISTRIBUTION_DRIFT`/`INFO` dictionary, carrying the computed max
drift (in its message) and the `current_distribution` entry. -/
inductive Alert
  | lowConfidence (avg_conf : ℚ) (threshold : ℚ)
  | distributionDrift (max_drift : ℚ) (current_distribution : LabelDist)
deriving DecidableEq, Repr

/-- The `"type"` field of an alert dictionary. -/
inductive AlertType
  | LOW_CONFIDENCE
  | DISTRIBUTION_DRIFT
deriving DecidableEq, Repr

/-- The `"severity"` field of an alert dictionary. -/
inductive Severity
  | WARNING
  | INFO
deriving DecidableEq, Repr

/-- The `"type"` entry each branch of `check_alerts` writes. -/
def Alert.atype : Alert → AlertType
  | .lowConfidence _ _ => .LOW_CONFIDENCE
  | .distributionDrift _ _ => .DISTRIBUTION_DRIFT

/-- The `"severity"` entry each branch of `check_alerts` writes. -/
def Alert.severity : Alert → Severity
  | .lowConfidence _ _ => .WARNING
  | .distributionDrift _ _ => .INFO

/-- The state of a `SentimentMonitor` from `monitoring.py`: the rolling
buffers plus the configuration set in `__init__` (the CSV log file is an
external sink and not part of the in-memory state modelled here). -/
structure SentimentMonitor where
  window_size : Nat
  confidence_buffer : List ℚ
  sentiment_buffer : List Label
  confidence_threshold : ℚ
  drift_threshold : ℚ
  baseline_distribution : LabelDist
deriving DecidableEq, Repr

/-- Model of the `SentimentMonitor` constructor of `monitoring.py` with window size `w`:
empty buffers, `confidence_threshold = 0.6`, `drift_threshold = 0.2`,
baseline `{Negative: 0.33, Neutral: 0.34, Positive: 0.33}`. -/
def mkMonitor (w : Nat) : SentimentMonitor :=
  { window_size := w
    confidence_buffer := []
    sentiment_buffer := []
    confidence_threshold := 6/10
    drift_threshold := 2/10
    baseline_distribution := ⟨33/100, 34/100, 33/100⟩ }

/-- The quotient of `sentiment_buffer.count(s)` by the buffer length, the
per-label share computed (for each of the three labels in canonical order)
in both `get_current_metrics` and `check_alerts`. -/
def SentimentMonitor.label_share (m : SentimentMonitor) (s : Label) : ℚ :=
  (m.sentiment_buffer.count s : ℚ) / (m.sentiment_buffer.length : ℚ)

/-- Model of `SentimentMonitor.check_alerts` of `monitoring.py`: empty below 10
samples; otherwise a `LOW_CONFIDENCE` alert when the mean confidence is
below the threshold, followed by a `DISTRIBUTION_DRIFT` alert when the
maximal per-label absolute deviation from the baseline exceeds the drift
threshold. -/
def SentimentMonitor.check_alerts (m : SentimentMonitor) : List Alert :=
  if m.confidence_buffer.length < 10 then []
  else
    let avg_conf := listMean m.confidence_buffer
    let lowAlerts : List Alert :=
      if avg_conf < m.confidence_threshold then [.lowConfidence avg_conf m.confidence_threshold]
      else []
    let current_dist : LabelDist :=
      ⟨m.label_share .Negative, m.label_share .Neutral, m.label_share .Positive⟩
    let max_drift :=
      max (max (|current_dist.Negative - m.baseline_distribution.Negative|)
          (|current_dist.Neutral - m.baseline_distribution.Neutral|))
        (|current_dist.Positive - m.baseline_distribution.Positive|)
    let driftAlerts : List Alert :=
      if m.drift_threshold < max_drift then [.distributionDrift max_drift current_dist]
      else []
    lowAlerts ++ driftAlerts

/-- Model of `SentimentMonitor.log_prediction` of `monitoring.py`: append confidence
and sentiment to the rolling buffers (the CSV row written afterwards goes to
the external sink), then return the result of `check_alerts` on the updated
state.  No validation of `result` is performed. -/
def SentimentMonitor.log_prediction (m : SentimentMonitor) (result : PredictionResult) :
    SentimentMonitor × List Alert :=
  let m2 := { m with
    confidence_buffer := dequeAppend m.window_size m.confidence_buffer result.confidence
    sentiment_buffer := dequeAppend m.window_size m.sentiment_buffer result.sentiment }
  (m2, m2.check_alerts)

/-- The dictionary returned by `SentimentMonitor.get_current_metrics`:
either the `{"status": "no_data", ...}` sentinel or the `"ok"` record with
the rolling statistics (the timestamp entry is wall-clock presentation and
not modelled). -/
inductive Metrics
  | noData
  | ok (total_predictions : Nat) (avg_confidence : ℚ) (min_confidence : ℚ)
      (max_confidence : ℚ) (sentiment_distribution : LabelDist)
deriving DecidableEq, Repr

/-- Model of `SentimentMonitor.get_current_metrics` of `monitoring.py`: the
`no_data` sentinel when the confidence buffer is empty, otherwise the
rolling statistics over the buffers. -/
def SentimentMonitor.get_current_metrics (m : SentimentMonitor) : Metrics :=
  if m.confidence_buffer.length = 0 then .noData
  else
    .ok m.confidence_buffer.length (listMean m.confidence_buffer)
      (listMin m.confidence_buffer) (listMax m.confidence_buffer)
      ⟨m.label_share .Negative, m.label_share .Neutral, m.label_share .Positive⟩

/-- The reason string returned by `SentimentMonitor.should_retrain`:
`"Dati insufficienti per la valutazione"`, `"Confidenza critica: ..."`
(carrying the mean), `"Trend negativo della confidenza rilevato"`, or
`"Performance nella norma"`. -/
inductive RetrainReason
  | insufficientData
  | criticalConfidence (avg_conf : ℚ)
  | negativeTrend
  | nominal
deriving DecidableEq, Repr

/-- Model of `SentimentMonitor.should_retrain` of `monitoring.py`: insufficient data
below `window_size` samples; then the critical mean-confidence check
(`avg_conf < 0.5`); then the trend check comparing the mean of the last 20
entries (`[-20:]`) against the mean of the first 20 (`[:20]`) minus 0.1. -/
def SentimentMonitor.should_retrain (m : SentimentMonitor) : Bool × RetrainReason :=
  if m.confidence_buffer.length < m.window_size then (false, .insufficientData)
  else
    let avg_conf := listMean m.confidence_buffer
    if avg_conf < 5/10 then (true, .criticalConfidence avg_conf)
    else
      let recent := m.confidence_buffer.drop (m.confidence_buffer.length - 20)
      let older := m.confidence_buffer.take 20
      if listMean recent < listMean older - 1/10 then (true, .negativeTrend)
      else (false, .nominal)

/-- Iterating `log_prediction` over a list of results (the monitor state it
leaves behind). -/
def SentimentMonitor.log_many (m : SentimentMonitor) (results : List PredictionResult) :
    SentimentMonitor :=
  results.foldl (fun acc r => (acc.log_prediction r).1) m

/-- Little-endian decimal digit characters of `n`, rendered with
`Nat.digitChar` (the digit characters `Nat.repr` is built from). -/
def decChars (n : Nat) : List Char :=
  if n < 10 then [Nat.digitChar n]
  else Nat.digitChar (n % 10) :: decChars (n / 10)
decreasing_by exact Nat.div_lt_self (by omega) (by omega)

/-- Decimal value of a little-endian digit-character list (left inverse of
`decChars`, used only to prove `decChars` injective). -/
def valChars : List Char → Nat
  | [] => 0
  | c :: cs => (c.toNat - 48) + 10 * valChars cs

/-- The version string built by `_simulate_retraining` from the format
string v-percent-Y-m-d_H-M-S: a version string derived from the call's wall-clock
second `t`.  The `%Y%m%d_%H%M%S` calendar rendering is injective per second;
it is modelled by the decimal rendering of `t`. -/
def model_version_of (t : Nat) : String := "v" ++ (decChars t).asString

/-- The dictionary returned by `RetrainingManager._simulate_retraining`
(its `status` is always `"completed"`; the `improvement` entry is derived
text): fixed simulated accuracy metrics plus the timestamp-derived model
version. -/
structure RetrainRecord where
  timestamp : Nat
  accuracy_before : ℚ
  accuracy_after : ℚ
  model_version : String
deriving DecidableEq, Repr

/-- Model of `RetrainingManager._simulate_retraining` at wall-clock second `t`. -/
def simulate_retraining (t : Nat) : RetrainRecord :=
  { timestamp := t
    accuracy_before := 72/100
    accuracy_after := 75/100
    model_version := model_version_of t }

/-- The dictionary `check_and_retrain` returns: either the
`{"status": "skipped", ...}` record (carrying the reason) or the completed
retraining record. -/
inductive RetrainOutcome
  | skipped (reason : RetrainReason) (timestamp : Nat)
  | completed (record : RetrainRecord)
deriving DecidableEq, Repr

/-- State of a `RetrainingManager` of `retrain.py`: a reference to a monitor and an
initially empty `retraining_history` list. -/
structure RetrainingManager where
  monitor : SentimentMonitor
  retraining_history : List RetrainRecord
deriving DecidableEq, Repr

/-- Model of `RetrainingManager.check_and_retrain` of `retrain.py`, the current
wall-clock second `t` passed explicitly: consult `should_retrain`; when not
warranted, return the skipped record without touching the history; when
warranted, run `_simulate_retraining`, append its record to the history and
return it. -/
def RetrainingManager.check_and_retrain (mgr : RetrainingManager) (t : Nat) :
    RetrainingManager × RetrainOutcome :=
  let sr := mgr.monitor.should_retrain
  if sr.1 then
    let result := simulate_retraining t
    ({ mgr with retraining_history := mgr.retraining_history ++ [result] },
      .completed result)
  else (mgr, .skipped sr.2 t)

/-- Selector for one public method call on a `SentimentMonitor`. -/
inductive MonitorCall
  | logPrediction (result : PredictionResult)
  | checkAlerts
  | getCurrentMetrics
  | shouldRetrain
deriving DecidableEq, Repr

/-- The value a monitor method call returns. -/
inductive MonitorOut
  | alerts (l : List Alert)
  | metrics (v : Metrics)
  | retrainDecision (d : Bool × RetrainReason)
deriving DecidableEq, Repr

/-- State-passing form of the four public monitor methods: the state each
call leaves behind together with its return value.  In `monitoring.py`,
`log_prediction` is the only one of the four that assigns to any attribute
(it appends to the two buffers); `check_alerts`, `get_current_metrics` and
`should_retrain` only read state, so they leave the monitor unchanged. -/
def SentimentMonitor.call (m : SentimentMonitor) :
    MonitorCall → SentimentMonitor × MonitorOut
  | .logPrediction result =>
    let r := m.log_prediction result
    (r.1, .alerts r.2)
  | .checkAlerts => (m, .alerts m.check_alerts)
  | .getCurrentMetrics => (m, .metrics m.get_current_metrics)
  | .shouldRetrain => (m, .retrainDecision m.should_retrain)


/-- Stable argmax with highest-index tie-breaking over the canonical label
order: the label of the maximal score, and among tied maxima the label with
the highest index (Positive over Neutral over Negative). -/
def argmaxHighest (s : LabelDist) : Label :=
  if s.Negative ≤ s.Positive ∧ s.Neutral ≤ s.Positive then .Positive
  else if s.Negative ≤ s.Neutral then .Neutral
  else .Negative

/-- Stable argmax with lowest-index tie-breaking, as the spec words it:
the label of the maximal score, and among tied maxima the label with the
lowest index (Negative over Neutral over Positive).  Stated from the spec,
to be compared against `predict`. -/
def argmaxLowest (s : LabelDist) : Label :=
  if s.Neutral ≤ s.Negative ∧ s.Positive ≤ s.Negative then .Negative
  else if s.Positive ≤ s.Neutral then .Neutral
  else .Positive

/-! Concrete states used by witnesses and counterexamples. -/

/-- A capacity-100 monitor whose window holds 99 entries, all with
confidence 0.1. -/
def monitor99 : SentimentMonitor :=
  { mkMonitor 100 with
    confidence_buffer := List.replicate 99 (1/10)
    sentiment_buffer := List.replicate 99 .Neutral }

/-- A capacity-100 monitor whose window is full with 100 entries, all with
confidence 0.45. -/
def monitor100crit : SentimentMonitor :=
  { mkMonitor 100 with
    confidence_buffer := List.replicate 100 (9/20)
    sentiment_buffer := List.replicate 100 .Neutral }

/-- A capacity-100 monitor whose window holds 9 entries, all with
confidence 0.4. -/
def monitor9low : SentimentMonitor :=
  { mkMonitor 100 with
    confidence_buffer := List.replicate 9 (2/5)
    sentiment_buffer := List.replicate 9 .Neutral }

/-- A capacity-100 monitor whose window holds 10 entries, all with
confidence 0.4. -/
def monitor10low : SentimentMonitor :=
  { mkMonitor 100 with
    confidence_buffer := List.replicate 10 (2/5)
    sentiment_buffer := List.replicate 10 .Neutral }

/-- A capacity-100 monitor whose window holds 20 entries, all labeled
Positive with confidence 0.9. -/
def monitor20pos : SentimentMonitor :=
  { mkMonitor 100 with
    confidence_buffer := List.replicate 20 (9/10)
    sentiment_buffer := List.replicate 20 .Positive }

/-- A retraining manager over a full capacity-1 window with confidence 0.4,
so retraining is warranted on every check. -/
def warrantedManager : RetrainingManager :=
  ⟨{ mkMonitor 1 with confidence_buffer := [2/5], sentiment_buffer := [.Neutral] }, []⟩

/-- A prediction result whose scores are malformed: they sum to 0.6, not
to 1. -/
def malformedResult : PredictionResult := ⟨.Neutral, 1/5, ⟨1/5, 1/5, 1/5⟩⟩

/-! ## Helper lemmas -/

lemma digitChar_val (d : Nat) (h : d < 10) : (Nat.digitChar d).toNat - 48 = d := by
  interval_cases d <;> rfl

lemma valChars_decChars (n : Nat) : valChars (decChars n) = n := by
  induction n using Nat.strong_induction_on with
  | _ n ih =>
    rw [decChars]
    by_cases h : n < 10
    · simp [h, valChars, digitChar_val n h]
    · have hd : n / 10 < n := Nat.div_lt_self (by omega) (by omega)
      simp [h, valChars, ih (n / 10) hd, digitChar_val (n % 10) (Nat.mod_lt _ (by omega))]
      omega

lemma model_version_of_inj {t1 t2 : Nat} (h : model_version_of t1 = model_version_of t2) :
    t1 = t2 := by
  have hdata : ('v' :: decChars t1) = ('v' :: decChars t2) := by
    have := congrArg String.data h
    simpa [model_version_of, List.asString, String.instAppend, String.append] using this
  have hdec : decChars t1 = decChars t2 := by injection hdata
  calc t1 = valChars (decChars t1) := (valChars_decChars t1).symm
    _ = valChars (decChars t2) := by rw [hdec]
    _ = t2 := valChars_decChars t2

lemma decChars_zero : decChars 0 = ['0'] := by
  rw [decChars]
  norm_num [Nat.digitChar]

lemma model_version_zero : model_version_of 0 = "v0" := by
  simp [model_version_of, decChars_zero, List.asString]

lemma warranted_sr :
    warrantedManager.monitor.should_retrain = (true, .criticalConfidence (2/5)) := by
  norm_num [warrantedManager, mkMonitor, SentimentMonitor.should_retrain, listMean]

lemma drop_glue {α : Type} (C : Nat) (b xs : List α) (x : α) :
    ((b ++ [x]).drop (b.length + 1 - C) ++ xs).drop
        ((b.length + 1 - (b.length + 1 - C)) + xs.length - C)
      = (b ++ x :: xs).drop (b.length + (xs.length + 1) - C) := by
  rw [show b ++ x :: xs = (b ++ [x]) ++ xs by simp]
  have hlx : (b ++ [x]).length = b.length + 1 := by simp
  rcases Nat.le_total (b.length + 1) C with h | h
  · rw [Nat.sub_eq_zero_of_le h, List.drop_zero, Nat.sub_zero]
    congr 1
    omega
  · have h1 : b.length + 1 - (b.length + 1 - C) = C := by omega
    rw [h1, List.drop_append_eq_append_drop]
    conv_rhs => rw [List.drop_append_eq_append_drop]
    rw [List.drop_drop, List.length_drop]
    congr 1
    · congr 1
      omega
    · congr 1
      omega

lemma dequeAppend_fold_eq {α : Type} (C : Nat) :
    ∀ (xs b : List α), b.length ≤ C →
      xs.foldl (dequeAppend C) b = (b ++ xs).drop (b.length + xs.length - C)
  | [], b, hb => by
    simp [List.foldl, Nat.sub_eq_zero_of_le hb]
  | x :: xs, b, hb => by
    rw [List.foldl_cons]
    have hlen : (dequeAppend C b x).length = b.length + 1 - (b.length + 1 - C) := by
      simp [dequeAppend]
    have hle : (dequeAppend C b x).length ≤ C := by omega
    rw [dequeAppend_fold_eq C xs (dequeAppend C b x) hle, hlen]
    simp only [dequeAppend, List.length_cons]
    exact drop_glue C b xs x

lemma log_many_state (rs : List PredictionResult) :
    ∀ m : SentimentMonitor,
      (m.log_many rs).window_size = m.window_size ∧
      (m.log_many rs).confidence_buffer
        = (rs.map PredictionResult.confidence).foldl (dequeAppend m.window_size)
            m.confidence_buffer ∧
      (m.log_many rs).sentiment_buffer
        = (rs.map PredictionResult.sentiment).foldl (dequeAppend m.window_size)
            m.sentiment_buffer := by
  induction rs with
  | nil => intro m; exact ⟨rfl, rfl, rfl⟩
  | cons r rs ih =>
    intro m
    obtain ⟨hw, hc, hs⟩ := ih (m.log_prediction r).1
    refine ⟨hw, ?_, ?_⟩
    · simpa [SentimentMonitor.log_many, SentimentMonitor.log_prediction] using hc
    · simpa [SentimentMonitor.log_many, SentimentMonitor.log_prediction] using hs

/-! ## The claims -/

/-- C1 counterexample: on the tied score vector (0.4, 0.4, 0.2) the code
returns Neutral, while the claimed lowest-index tie-breaking returns
Negative — the claim as stated is false on `predict`. -/
theorem predict_tie_counterexample :
    (predict ⟨2/5, 2/5, 1/5⟩).sentiment = Label.Neutral ∧
    argmaxLowest ⟨2/5, 2/5, 1/5⟩ = Label.Negative ∧
    Label.Neutral ≠ Label.Negative := by
  refine ⟨?_, ?_, by simp⟩
  · have hr : List.range 3 = [0, 1, 2] := rfl
    norm_num [predict, argsort, hr, insertAsc, LabelDist.nth, Label.ofIdx]
  · norm_num [argmaxLowest]

/-- C1 amended: for every score vector, the `sentiment` returned by
`predict` is the label whose score is the maximum of the three scores, and
when two or more labels share the maximum the returned label is the one
with the HIGHEST index in the canonical order {Negative, Neutral, Positive}
(the reversal of numpy's stable ascending argsort puts the last-indexed of
the tied maxima first). -/
theorem predict_eq_argmaxHighest (s : LabelDist) :
    (predict s).sentiment = argmaxHighest s := by
  have hr : List.range 3 = [0, 1, 2] := rfl
  simp only [predict, argsort, hr, List.foldl, insertAsc, LabelDist.nth, argmaxHighest]
  split_ifs <;>
    simp_all [insertAsc, LabelDist.nth, Label.ofIdx] <;>
    split_ifs <;>
    simp_all [Label.ofIdx] <;>
    linarith

/-- C2: on a monitor whose rolling window holds fewer entries than its
capacity, `should_retrain` returns (false, insufficient data) regardless of
the recorded confidence values. -/
theorem should_retrain_insufficient_data (m : SentimentMonitor)
    (h : m.confidence_buffer.length < m.window_size) :
    m.should_retrain = (false, RetrainReason.insufficientData) := by
  simp [SentimentMonitor.should_retrain, h]

/-- C2 witness: a capacity-100 monitor holding 99 entries, all with
confidence 0.1, is below capacity and yields (false, insufficient data). -/
theorem should_retrain_insufficient_data_witness :
    monitor99.confidence_buffer.length < monitor99.window_size ∧
    monitor99.should_retrain = (false, RetrainReason.insufficientData) :=
  ⟨by simp [monitor99, mkMonitor],
    should_retrain_insufficient_data monitor99 (by simp [monitor99, mkMonitor])⟩

/-- C3: on a full window (size equal to capacity) whose mean confidence is
below the critical threshold 0.5, `should_retrain` returns true citing the
critical mean confidence — this branch precedes the trend check, whose
slices are never consulted. -/
theorem should_retrain_critical_confidence (m : SentimentMonitor)
    (hfull : m.confidence_buffer.length = m.window_size)
    (hcrit : listMean m.confidence_buffer < 5/10) :
    m.should_retrain = (true, .criticalConfidence (listMean m.confidence_buffer)) := by
  rw [SentimentMonitor.should_retrain, if_neg (by omega), if_pos hcrit]

/-- C3 witness: a full capacity-100 window with all confidences 0.45 yields
(true, critical confidence 0.45). -/
theorem should_retrain_critical_confidence_witness :
    monitor100crit.confidence_buffer.length = monitor100crit.window_size ∧
    listMean monitor100crit.confidence_buffer < 5/10 ∧
    monitor100crit.should_retrain
      = (true, .criticalConfidence (listMean monitor100crit.confidence_buffer)) := by
  have hfull : monitor100crit.confidence_buffer.length = monitor100crit.window_size := by
    simp [monitor100crit, mkMonitor]
  have hcrit : listMean monitor100crit.confidence_buffer < 5/10 := by
    norm_num [monitor100crit, mkMonitor, listMean, List.sum_replicate]
  exact ⟨hfull, hcrit, should_retrain_critical_confidence monitor100crit hfull hcrit⟩

lemma check_and_retrain_warranted (mgr : RetrainingManager) (t : Nat)
    (hw : mgr.monitor.should_retrain.1 = true) :
    mgr.check_and_retrain t
      = (⟨mgr.monitor, mgr.retraining_history ++ [simulate_retraining t]⟩,
          .completed (simulate_retraining t)) := by
  cases mgr with
  | mk monitor history => simp_all [RetrainingManager.check_and_retrain]

lemma check_and_retrain_warranted_fst (mgr : RetrainingManager) (t : Nat)
    (hw : mgr.monitor.should_retrain.1 = true) :
    (mgr.check_and_retrain t).1
      = ⟨mgr.monitor, mgr.retraining_history ++ [simulate_retraining t]⟩ := by
  rw [check_and_retrain_warranted mgr t hw]

/-- C4 counterexample: two sequential `check_and_retrain` calls within the
same wall-clock second (both warranting retraining) append two history
records whose `model_version` strings are identical ("v0" twice) — the
claimed distinctness fails. -/
theorem check_and_retrain_same_second_collision :
    warrantedManager.monitor.should_retrain.1 = true ∧
    (((warrantedManager.check_and_retrain 0).1.check_and_retrain 0).1).retraining_history.map
        RetrainRecord.model_version = ["v0", "v0"] := by
  have hw : warrantedManager.monitor.should_retrain.1 = true := by rw [warranted_sr]
  refine ⟨hw, ?_⟩
  rw [check_and_retrain_warranted_fst warrantedManager 0 hw,
    check_and_retrain_warranted_fst
      ⟨warrantedManager.monitor,
        warrantedManager.retraining_history ++ [simulate_retraining 0]⟩ 0 hw]
  simp [warrantedManager, simulate_retraining, model_version_zero]

/-- C4 amended: if `check_and_retrain` is called twice in sequence and the
first call warrants retraining (the second then warrants as well, since
`check_and_retrain` never modifies the monitor), exactly 2 records are
appended to the retraining history; their `model_version` strings are
distinct whenever the two calls fall in distinct wall-clock seconds (the
version is a second-resolution timestamp, so same-second calls collide). -/
theorem check_and_retrain_twice_appends_two (mgr : RetrainingManager) (t1 t2 : Nat)
    (hw : mgr.monitor.should_retrain.1 = true) (ht : t1 ≠ t2) :
    ((mgr.check_and_retrain t1).1.check_and_retrain t2).1.retraining_history
        = mgr.retraining_history ++ [simulate_retraining t1, simulate_retraining t2] ∧
    (simulate_retraining t1).model_version ≠ (simulate_retraining t2).model_version := by
  constructor
  · rw [check_and_retrain_warranted_fst mgr t1 hw,
      check_and_retrain_warranted_fst
        ⟨mgr.monitor, mgr.retraining_history ++ [simulate_retraining t1]⟩ t2 hw]
    simp
  · intro hc
    exact ht (model_version_of_inj hc)

/-- C4 amended witness: on the warranted manager, calls at seconds 0 and 1
append exactly the two records, with distinct versions. -/
theorem check_and_retrain_twice_appends_two_witness :
    warrantedManager.monitor.should_retrain.1 = true ∧ (0 : Nat) ≠ 1 ∧
    (((warrantedManager.check_and_retrain 0).1.check_and_retrain 1).1.retraining_history
        = warrantedManager.retraining_history
            ++ [simulate_retraining 0, simulate_retraining 1] ∧
      (simulate_retraining 0).model_version ≠ (simulate_retraining 1).model_version) :=
  ⟨by rw [warranted_sr], by decide,
    check_and_retrain_twice_appends_two warrantedManager 0 1 (by rw [warranted_sr]) (by decide)⟩

/-- C5: recording N results into a fresh monitor of capacity C leaves both
buffers equal to the newest min N C entries (strict FIFO: the oldest N − C
entries are dropped), so the window size is N when N ≤ C and C when N > C,
the two buffers always have equal length, and the label distribution
(`label_share`, the per-label count over the window) is computed from the
kept suffix only — the evicted entries are no longer reflected in it. -/
theorem log_many_window_fifo (C : Nat) (rs : List PredictionResult) :
    ((mkMonitor C).log_many rs).confidence_buffer
        = (rs.map PredictionResult.confidence).drop (rs.length - C) ∧
    ((mkMonitor C).log_many rs).sentiment_buffer
        = (rs.map PredictionResult.sentiment).drop (rs.length - C) ∧
    ((mkMonitor C).log_many rs).confidence_buffer.length = min rs.length C ∧
    ((mkMonitor C).log_many rs).sentiment_buffer.length
        = ((mkMonitor C).log_many rs).confidence_buffer.length ∧
    (∀ s : Label, ((mkMonitor C).log_many rs).label_share s
        = (((rs.map PredictionResult.sentiment).drop (rs.length - C)).count s : ℚ)
            / ((min rs.length C : Nat) : ℚ)) := by
  obtain ⟨hw, hc, hs⟩ := log_many_state rs (mkMonitor C)
  have h1 := dequeAppend_fold_eq C (rs.map PredictionResult.confidence) [] (by simp)
  have h2 := dequeAppend_fold_eq C (rs.map PredictionResult.sentiment) [] (by simp)
  simp only [List.nil_append, List.length_nil, Nat.zero_add, List.length_map] at h1 h2
  have hc2 : ((mkMonitor C).log_many rs).confidence_buffer
      = (rs.map PredictionResult.confidence).drop (rs.length - C) := by
    rw [hc]; exact h1
  have hs2 : ((mkMonitor C).log_many rs).sentiment_buffer
      = (rs.map PredictionResult.sentiment).drop (rs.length - C) := by
    rw [hs]; exact h2
  have hlen : ((mkMonitor C).log_many rs).confidence_buffer.length = min rs.length C := by
    rw [hc2, List.length_drop, List.length_map]
    omega
  have hlen2 : ((mkMonitor C).log_many rs).sentiment_buffer.length
      = ((mkMonitor C).log_many rs).confidence_buffer.length := by
    rw [hs2, hlen, List.length_drop, List.length_map]
    omega
  refine ⟨hc2, hs2, hlen, hlen2, fun s => ?_⟩
  rw [SentimentMonitor.label_share, hs2, List.length_drop, List.length_map]
  congr 1
  norm_cast
  omega

/-- C6: `check_alerts` returns the empty alert list whenever the window
holds fewer than 10 entries, regardless of the recorded confidences and
labels; with 10 entries the checks do run — a window of 10 recordings with
confidence 0.4 produces a non-empty alert list. -/
theorem check_alerts_below_ten :
    (∀ m : SentimentMonitor, m.confidence_buffer.length < 10 → m.check_alerts = []) ∧
    monitor10low.check_alerts ≠ [] := by
  constructor
  · intro m h
    simp [SentimentMonitor.check_alerts, h]
  · have h3 : |(33 : ℚ)/100| = 33/100 := abs_of_nonneg (by norm_num)
    have h4 : |(33 : ℚ)/50| = 33/50 := abs_of_nonneg (by norm_num)
    have heval : monitor10low.check_alerts
        = [Alert.lowConfidence (2/5) (3/5), Alert.distributionDrift (33/50) ⟨0, 1, 0⟩] := by
      norm_num [SentimentMonitor.check_alerts, monitor10low, mkMonitor,
        SentimentMonitor.label_share, listMean, List.sum_replicate, List.count_replicate]
      simp only [reduceCtorEq, if_false, if_true]
      norm_num [h3, h4]
    rw [heval]
    simp

/-- C6 witness: 9 recordings (the boundary case just below 10) give no
alerts. -/
theorem check_alerts_below_ten_witness : monitor9low.check_alerts = [] :=
  check_alerts_below_ten.1 monitor9low (by simp [monitor9low, mkMonitor])

/-- C7: with the default baseline {Negative: 0.33, Neutral: 0.34,
Positive: 0.33} and a window of exactly 20 recordings, all Positive with
confidence 0.9, `check_alerts` returns exactly one alert: a
DISTRIBUTION_DRIFT of severity INFO carrying the current distribution (all
mass on Positive) with max drift 0.67 > 0.2 — and no LOW_CONFIDENCE alert,
the mean confidence 0.9 being at least 0.6. -/
theorem check_alerts_drift_scenario :
    monitor20pos.check_alerts = [Alert.distributionDrift (67/100) ⟨0, 0, 1⟩] ∧
    monitor20pos.check_alerts.map Alert.atype = [AlertType.DISTRIBUTION_DRIFT] ∧
    monitor20pos.check_alerts.map Alert.severity = [Severity.INFO] := by
  have h3 : |(33 : ℚ)/100| = 33/100 := abs_of_nonneg (by norm_num)
  have h4 : |(17 : ℚ)/50| = 17/50 := abs_of_nonneg (by norm_num)
  have h5 : |(67 : ℚ)/100| = 67/100 := abs_of_nonneg (by norm_num)
  have heval : monitor20pos.check_alerts
      = [Alert.distributionDrift (67/100) ⟨0, 0, 1⟩] := by
    norm_num [SentimentMonitor.check_alerts, monitor20pos, mkMonitor,
      SentimentMonitor.label_share, listMean, List.sum_replicate, List.count_replicate]
    simp only [reduceCtorEq, if_false, if_true]
    norm_num [h3, h4, h5]
  refine ⟨heval, by rw [heval]; rfl, by rw [heval]; rfl⟩

/-- C8 counterexample: a prediction result whose scores sum to 0.6 (not 1)
is silently accepted by `log_prediction`: its confidence and sentiment enter
the rolling buffers, with no rejection and no failure — the monitor treats
the malformed scores as valid. -/
theorem log_prediction_accepts_malformed :
    malformedResult.scores.Negative + malformedResult.scores.Neutral +
        malformedResult.scores.Positive ≠ 1 ∧
    ((mkMonitor 100).log_prediction malformedResult).1.confidence_buffer = [1/5] ∧
    ((mkMonitor 100).log_prediction malformedResult).1.sentiment_buffer = [.Neutral] := by
  refine ⟨by norm_num [malformedResult], ?_, ?_⟩ <;>
    simp [SentimentMonitor.log_prediction, mkMonitor, malformedResult, dequeAppend]

/-- C8 amended: `log_prediction` performs no validation of the scores —
even when they do not sum to 1, the result's confidence and sentiment are
appended to the rolling buffers exactly as for a well-formed result. -/
theorem log_prediction_no_validation (m : SentimentMonitor) (r : PredictionResult)
    (hmal : r.scores.Negative + r.scores.Neutral + r.scores.Positive ≠ 1) :
    (m.log_prediction r).1.confidence_buffer
        = dequeAppend m.window_size m.confidence_buffer r.confidence ∧
    (m.log_prediction r).1.sentiment_buffer
        = dequeAppend m.window_size m.sentiment_buffer r.sentiment :=
  ⟨rfl, rfl⟩

/-- C8 amended witness: the malformed result above is appended unchanged to
a fresh default monitor's buffers. -/
theorem log_prediction_no_validation_witness :
    malformedResult.scores.Negative + malformedResult.scores.Neutral +
        malformedResult.scores.Positive ≠ 1 ∧
    (((mkMonitor 100).log_prediction malformedResult).1.confidence_buffer
        = dequeAppend 100 [] (1/5) ∧
      ((mkMonitor 100).log_prediction malformedResult).1.sentiment_buffer
        = dequeAppend 100 [] Label.Neutral) :=
  ⟨by norm_num [malformedResult],
    log_prediction_no_validation (mkMonitor 100) malformedResult
      (by norm_num [malformedResult])⟩

/-- C9: `get_current_metrics` returns the no-data sentinel exactly when the
window is empty (so the mean/min/max statistics and the label distribution
are only built for a non-empty window, and the empty window never reaches
the division). -/
theorem get_current_metrics_no_data_iff (m : SentimentMonitor) :
    m.get_current_metrics = Metrics.noData ↔ m.confidence_buffer.length = 0 := by
  by_cases h : m.confidence_buffer.length = 0 <;>
    simp [SentimentMonitor.get_current_metrics, h]

/-- C10: no monitor method changes the window capacity, the thresholds or
the baseline distribution; and `check_alerts`, `get_current_metrics` and
`should_retrain` leave the whole monitor state — in particular the two
rolling buffers — unchanged (alerts are recomputed from state each call;
no alert state exists to persist). -/
theorem monitor_call_frame (m : SentimentMonitor) (c : MonitorCall) :
    ((m.call c).1.window_size = m.window_size ∧
      (m.call c).1.confidence_threshold = m.confidence_threshold ∧
      (m.call c).1.drift_threshold = m.drift_threshold ∧
      (m.call c).1.baseline_distribution = m.baseline_distribution) ∧
    (m.call .checkAlerts).1 = m ∧
    (m.call .getCurrentMetrics).1 = m ∧
    (m.call .shouldRetrain).1 = m := by
  cases c <;> exact ⟨⟨rfl, rfl, rfl, rfl⟩, rfl, rfl, rfl⟩
